import Mathlib

/-!
# Verification of the kappa-v2 serverless runtime

Shallow embedding of the kappa-v2 function supervisor:
* the container adapter (`src/service/internal/cont/cont.go`),
* the per-function lifecycle state machine
  (`src/kappa-service/internal/kappa/kappa.go`),
* the HTTP registry service
  (`src/kappa-service/cmd/kappa-service/main.go`).

External effects (the containerd engine, the filesystem, the outbound
HTTP client, UUID generation) are modelled as explicit outcome
parameters threaded through each operation, so every definition is an
executable function of its inputs and mirrors the Go control flow
branch for branch.
-/

namespace Kappa

/-! ## Container adapter (`src/service/internal/cont/cont.go`) -/

/-- Task status as reported by containerd (`containerd.ProcessStatus`).
`unknownStatus` stands for the zero value `Status("")` that Go leaves in
`status` when `task.Status` returns an error. -/
inductive ProcStatus where
  | created
  | running
  | stopped
  | paused
  | pausing
  | unknownStatus
deriving DecidableEq, Repr

/-- Errors returned by containerd RPCs, split the way the Go code splits
them with `errors.Is(err, errdefs.ErrNotFound)`. -/
inductive EngineErr where
  | notFound
  | other (msg : String)
deriving DecidableEq, Repr

deriving instance DecidableEq for Except

/-- `cont.StopOptions`. The timeout duration itself plays no role in the
sequential model beyond selecting the timeout branch of the `select`. -/
structure StopOptions where
  forceKill : Bool
  removeOnStop : Bool
deriving DecidableEq, Repr

/-- Outcomes of the engine RPCs performed by `Container.Remove`. -/
structure RemoveWorld where
  /-- `c.task.Status(c.ctx)` inside `Remove`. -/
  taskStatus : Except EngineErr ProcStatus
  /-- `c.task.Delete(c.ctx)`. -/
  taskDelete : Option EngineErr
  /-- `c.container.Delete(c.ctx, WithSnapshotCleanup)`. -/
  containerDelete : Option EngineErr
  /-- aggregate outcome of removing the registered temp directories. -/
  cleanupErr : Option String
deriving DecidableEq, Repr

/-- Outcomes of the engine RPCs performed by `Container.Stop`. -/
structure StopWorld where
  /-- `c.task.Status(c.ctx)` at the top of `Stop`. -/
  statusResult : Except EngineErr ProcStatus
  /-- the first `c.task.Kill` (SIGTERM, or SIGKILL when `forceKill`). -/
  killResult : Option EngineErr
  /-- `c.task.Wait(c.ctx)` setup. -/
  waitResult : Option String
  /-- whether the exit-status channel fired before the stop timeout. -/
  exitBeforeTimeout : Bool
  /-- the escalation `c.task.Kill(SIGKILL)` after a timeout. -/
  forceKillResult : Option EngineErr
  /-- outcomes of the `Remove` call reachable from `Stop`. -/
  removeW : RemoveWorld
deriving DecidableEq, Repr

/-- The adapter-level container handle: the fields of `cont.Container`
that `Stop`/`Remove` consult. `taskPresent` models `c.task != nil` and
`containerPresent` models `c.container != nil`. -/
structure Container where
  id : String
  taskPresent : Bool
  containerPresent : Bool
deriving DecidableEq, Repr

/-- `Container.Remove`: best-effort delete of task, container and temp
directories; not-found errors are ignored and the rest are joined. -/
def Container.Remove (c : Container) (w : RemoveWorld) : Except String Unit :=
  let errs1 : List String :=
    if c.taskPresent then
      match w.taskStatus with
      | .ok _ =>
        match w.taskDelete with
        | some (.other m) => ["failed to delete task: " ++ m]
        | _ => []
      | .error _ => []
    else []
  let errs2 : List String :=
    if c.containerPresent then
      match w.containerDelete with
      | some (.other m) => ["failed to delete container: " ++ m]
      | _ => []
    else []
  let errs3 : List String :=
    match w.cleanupErr with
    | some m => [m]
    | none => []
  match errs1 ++ errs2 ++ errs3 with
  | [] => .ok ()
  | es => .error (String.intercalate "\n" es)

/-- The status value Go ends up comparing against `containerd.Running`:
the reported status on success, the zero value when `task.Status`
errored (the error is only logged). -/
def statusOrZero (r : Except EngineErr ProcStatus) : ProcStatus :=
  match r with
  | .ok s => s
  | .error _ => .unknownStatus

/-- `Container.Stop` from `src/service/internal/cont/cont.go`:
nil task is an error; a task that is not running proceeds straight to
cleanup; otherwise signal, wait with timeout, escalate, then optionally
`Remove`. -/
def Container.Stop (c : Container) (w : StopWorld) (opts : StopOptions) :
    Except String Unit :=
  if !c.taskPresent then
    .error "no running task found"
  else
    let status := statusOrZero w.statusResult
    if status ≠ ProcStatus.running then
      if opts.removeOnStop then c.Remove w.removeW else .ok ()
    else
      match w.killResult with
      | some .notFound =>
        if opts.removeOnStop then c.Remove w.removeW else .ok ()
      | some (.other m) => .error ("failed to stop container: " ++ m)
      | none =>
        match w.waitResult with
        | some m => .error ("failed to wait for container: " ++ m)
        | none =>
          if w.exitBeforeTimeout then
            if opts.removeOnStop then c.Remove w.removeW else .ok ()
          else
            match w.forceKillResult with
            | some (.other m) =>
              .error ("failed to force kill container: " ++ m)
            | _ =>
              if opts.removeOnStop then c.Remove w.removeW else .ok ()

/-! ## Function instance (`src/kappa-service/internal/kappa/kappa.go`) -/

/-- `kappa.KappaEvent`. The `map[string]any` values carried in `body`,
`headers` and `queryParams` are never interpreted by the supervisor and
are modelled as strings. -/
structure KappaEvent where
  body : List (String × String)
  path : String
  httpMethod : String
  headers : List (String × String)
  queryParams : List (String × String)
  requestId : String
deriving DecidableEq, Repr

/-- `kappa.KappaResponse`. -/
structure KappaResponse where
  statusCode : Int
  headers : List (String × String)
  body : List (String × String)
  requestId : String
deriving DecidableEq, Repr

/-- The configuration `KappaFunction.Start` hands to `cont.NewContainer`
(the fields of `cont.ContainerConfig` relevant to the supervisor). -/
structure KContainerConfig where
  image : String
  name : String
  command : List String
  env : List String
  nspace : String
deriving DecidableEq, Repr

/-- `kappa.KappaFunction`: the per-function mutable runtime state.
`container = none` models the nil pointer, `containerURL = ""` the Go
zero value, and `idleTimerArmed` models `idleTimer != nil`. -/
structure KappaFunction where
  Name : String
  BinaryPath : String
  Image : String
  Env : List String
  Port : Int
  container : Option KContainerConfig
  containerURL : String
  logs : List String
  isRunning : Bool
  requestsProcessed : Nat
  idleTimeoutNs : Nat
  idleTimerArmed : Bool
deriving DecidableEq, Repr

/-- `kappa.NewKappaFunction`: fresh instance, cold, default idle
timeout of five minutes. -/
def NewKappaFunction (name binaryPath image : String) (env : List String)
    (port : Int) : KappaFunction :=
  { Name := name
    BinaryPath := binaryPath
    Image := image
    Env := env
    Port := port
    container := none
    containerURL := ""
    logs := []
    isRunning := false
    requestsProcessed := 0
    idleTimeoutNs := 5 * 60 * 1000000000
    idleTimerArmed := false }

/-- Outcomes of the fallible steps inside `KappaFunction.Start`. -/
structure StartWorld where
  /-- `os.MkdirTemp`: the created path, or an error. -/
  mkdirTemp : Except String String
  /-- whether `os.Link` succeeded (hard link of the binary). -/
  linkOk : Bool
  /-- the fallback `copyFile` outcome, consulted when the link failed. -/
  copyErr : Option String
  /-- `os.Chmod 0755`. -/
  chmodErr : Option String
  /-- `cont.NewContainer`. -/
  newContainerErr : Option String
  /-- `container.Start()`. -/
  containerStartErr : Option String
  /-- `container.StreamLogs(...)`. -/
  streamLogsErr : Option String
  /-- `uuid.New().String()` used inside the container name. -/
  uuidStr : String
deriving DecidableEq, Repr

/-- The environment list assembled by `KappaFunction.Start`: the four
base variables, then the caller-provided entries in order. -/
def startEnv (lf : KappaFunction) : List String :=
  ["PORT=" ++ toString lf.Port,
   "LAMBDA_TASK_ROOT=/app",
   "LAMBDA_FUNCTION_NAME=" ++ lf.Name,
   "AWS_LAMBDA_RUNTIME_API=localhost:8080"] ++ lf.Env

/-- `KappaFunction.Start`: no-op when already running; otherwise temp
dir, binary link/copy, chmod, container create + start + log streaming,
then set `container`, `containerURL`, `isRunning` and arm the idle
timer. On any step failure the instance state is unchanged. -/
def KappaFunction.Start (lf : KappaFunction) (w : StartWorld) :
    KappaFunction × Option String :=
  if lf.isRunning then
    (lf, none)
  else
    match w.mkdirTemp with
    | .error e => (lf, some ("failed to create temp directory: " ++ e))
    | .ok _tmpPath =>
      if !w.linkOk && w.copyErr.isSome then
        (lf, some "failed to copy binary")
      else if w.chmodErr.isSome then
        (lf, some "failed to make binary executable")
      else
        match w.newContainerErr with
        | some e => (lf, some ("failed to create container: " ++ e))
        | none =>
          match w.containerStartErr with
          | some e => (lf, some ("failed to start container: " ++ e))
          | none =>
            match w.streamLogsErr with
            | some e => (lf, some ("failed to stream logs: " ++ e))
            | none =>
              let cfg : KContainerConfig :=
                { image := lf.Image
                  name := "kappa-" ++ lf.Name ++ "-" ++ w.uuidStr
                  command := ["/app/main"]
                  env := startEnv lf
                  nspace := "kappa" }
              ({ lf with
                  container := some cfg
                  containerURL := "http://localhost:" ++ toString lf.Port
                  isRunning := true
                  idleTimerArmed := true }, none)

/-- `KappaFunction.Stop`: no-op when not running or the container field
is nil; otherwise cancel the idle timer, stop the container
(`forceKill=true, removeOnStop=true, timeout=10s`), and only on success
set `isRunning := false`. The `container` and `containerURL` fields are
left as they are. `contStopErr` is the outcome of `lf.container.Stop`. -/
def KappaFunction.Stop (lf : KappaFunction) (contStopErr : Option String) :
    KappaFunction × Option String :=
  if !lf.isRunning || lf.container = none then
    (lf, none)
  else
    let lf1 := { lf with idleTimerArmed := false }
    match contStopErr with
    | some e => (lf1, some ("failed to stop container: " ++ e))
    | none => ({ lf1 with isRunning := false }, none)

/-- The log callback registered by `Start`: append the line, then trim
the buffer to its last 1000 entries when it exceeds 1000. -/
def appendLog (logs : List String) (line : String) : List String :=
  let l := logs ++ [line]
  if l.length > 1000 then l.drop (l.length - 1000) else l

/-- Outcome of one `client.Do` call: a transport-level error (the
`err != nil` branch of `client.Do`), or a transport success whose body
then either decodes into a `KappaResponse` or fails to decode. -/
inductive PostOutcome where
  | doError (msg : String)
  | ok (decoded : Except String KappaResponse)
deriving DecidableEq, Repr

/-- `true` exactly on the `client.Do` error branch. -/
def PostOutcome.isDoError : PostOutcome → Bool
  | .doError _ => true
  | .ok _ => false

/-- Outcomes of the external effects inside `KappaFunction.Invoke`. -/
structure InvokeWorld where
  /-- the `Start` performed when the instance is observed cold. -/
  startW : StartWorld
  /-- `uuid.New().String()` generated for an empty `event.requestId`. -/
  freshId : String
  /-- the first `client.Do(req)`. -/
  post1 : PostOutcome
  /-- `lf.container.Stop` inside the restart branch (result discarded). -/
  restartStopErr : Option String
  /-- the `Start` inside the restart branch. -/
  restartStartW : StartWorld
  /-- the retried `client.Do(req)` after the restart. -/
  post2 : PostOutcome
deriving DecidableEq, Repr

/-- Result of `KappaFunction.Invoke`, with instrumentation recording
what the call did: how many in-place restarts were attempted, how many
POSTs were issued, the request id sent on the
`Kappa-Runtime-Aws-Request-Id` header, and the decoded response
envelope before the request-id backfill. -/
structure InvokeOutput where
  state : KappaFunction
  result : Except String KappaResponse
  restarts : Nat
  postsAttempted : Nat
  headerSent : Option String
  envelope : Option KappaResponse
deriving DecidableEq, Repr

/-- The tail of `Invoke` after a transport-successful POST: decode the
envelope, backfill an empty `requestId` with the invocation's id,
increment `requestsProcessed`. -/
def invokeFinish (s : KappaFunction) (reqId : String)
    (decoded : Except String KappaResponse) (restarts posts : Nat) :
    InvokeOutput :=
  match decoded with
  | .error e =>
    { state := s, result := .error ("failed to decode response: " ++ e)
      restarts := restarts, postsAttempted := posts
      headerSent := some reqId, envelope := none }
  | .ok kr =>
    let kr2 := if kr.requestId = "" then { kr with requestId := reqId } else kr
    { state := { s with requestsProcessed := s.requestsProcessed + 1 }
      result := .ok kr2
      restarts := restarts, postsAttempted := posts
      headerSent := some reqId, envelope := some kr }

/-- `KappaFunction.Invoke`: start if cold, reset the idle timer,
generate a request id when the event carries none, POST the event; on a
`client.Do` error while `isRunning` perform one Stop + Start + retry;
decode and backfill. Mirrors the Go control flow branch for branch. -/
def KappaFunction.Invoke (lf : KappaFunction) (w : InvokeWorld)
    (event : KappaEvent) : InvokeOutput :=
  let startStep : KappaFunction × Option String :=
    if !lf.isRunning then lf.Start w.startW else (lf, none)
  match startStep with
  | (s1, some e) =>
    { state := s1, result := .error ("failed to start kappa function: " ++ e)
      restarts := 0, postsAttempted := 0, headerSent := none, envelope := none }
  | (s1, none) =>
    let s2 := { s1 with idleTimerArmed := true }
    let reqId := if event.requestId = "" then w.freshId else event.requestId
    match w.post1 with
    | .ok decoded => invokeFinish s2 reqId decoded 0 1
    | .doError e1 =>
      if s2.isRunning then
        let s3 := (s2.Stop w.restartStopErr).1
        match s3.Start w.restartStartW with
        | (s4, some e) =>
          { state := s4
            result := .error ("failed to restart kappa function: " ++ e)
            restarts := 1, postsAttempted := 1
            headerSent := some reqId, envelope := none }
        | (s4, none) =>
          match w.post2 with
          | .doError e2 =>
            { state := s4
              result :=
                .error ("failed to invoke kappa function after restart: " ++ e2)
              restarts := 1, postsAttempted := 2
              headerSent := some reqId, envelope := none }
          | .ok decoded => invokeFinish s4 reqId decoded 1 2
      else
        { state := s2
          result := .error ("failed to invoke kappa function: " ++ e1)
          restarts := 0, postsAttempted := 1
          headerSent := some reqId, envelope := none }

/-! ## Instance-level operation traces

The observable operations the registry and timers perform on one
`KappaFunction`, used to state reachability invariants. -/

/-- One observable operation on a function instance. Each constructor
carries the outcomes of the external effects of that operation. -/
inductive KOp where
  | start (w : StartWorld)
  | stop (contStopErr : Option String)
  | invoke (w : InvokeWorld) (ev : KappaEvent)
  /-- the idle-timer callback: re-check `isRunning`, Stop if still true. -/
  | idleFire (contStopErr : Option String)
  | setIdleTimeout (d : Nat)
deriving Repr

/-- Apply one operation to the instance state. -/
def stepOp (s : KappaFunction) (op : KOp) : KappaFunction :=
  match op with
  | .start w => (s.Start w).1
  | .stop e => (s.Stop e).1
  | .invoke w ev => (s.Invoke w ev).state
  | .idleFire e => if s.isRunning then (s.Stop e).1 else s
  | .setIdleTimeout d => { s with idleTimeoutNs := d }

/-- Run a sequence of operations. -/
def runOps (s : KappaFunction) (ops : List KOp) : KappaFunction :=
  ops.foldl stepOp s

/-! ## Registry service (`src/kappa-service/cmd/kappa-service/main.go`) -/

/-- Outcome of `os.Stat` on the registered binary, split the way the
handler splits it with `os.IsNotExist`. -/
inductive StatResult where
  | statOk
  | notExists
  | otherErr (msg : String)
deriving DecidableEq, Repr

/-- `KappaFunctionConfig` as decoded from the register request body. -/
structure KappaFunctionConfig where
  name : String
  binaryPath : String
  image : String
  env : List String
  port : Int
deriving DecidableEq, Repr

/-- Body of an HTTP reply: plain text from `http.Error`, or the JSON
object written by `json.NewEncoder(w).Encode`. -/
inductive ReplyBody where
  | text (s : String)
  | obj (fields : List (String × String))
deriving DecidableEq, Repr

/-- An HTTP reply: status code plus body. -/
structure HttpReply where
  status : Int
  body : ReplyBody
deriving DecidableEq, Repr

/-- The registry: the `functions` map, modelled as an association list
whose insert replaces the entry of an existing key, as Go map
assignment does. -/
structure KappaService where
  functions : List (String × KappaFunction)
deriving DecidableEq, Repr

/-- Go map assignment `m[k] = v`: replace in place, or append. -/
def mapSet (m : List (String × KappaFunction)) (k : String)
    (v : KappaFunction) : List (String × KappaFunction) :=
  if m.any (fun p => p.1 = k) then
    m.map (fun p => if p.1 = k then (k, v) else p)
  else
    m ++ [(k, v)]

/-- Go map lookup `m[k]`. -/
def mapGet (m : List (String × KappaFunction)) (k : String) :
    Option KappaFunction :=
  (m.find? (fun p => p.1 = k)).map (fun p => p.2)

/-- Go map `delete(m, k)`. -/
def mapDel (m : List (String × KappaFunction)) (k : String) :
    List (String × KappaFunction) :=
  m.filter (fun p => p.1 ≠ k)

/-- `KappaService.registerFunction`: validate required fields, check
the binary on disk (`os.IsNotExist` only), default port 0 to 8080,
create the instance and store it under its name, reply `201`. There is
no duplicate-name check: assignment overwrites any existing entry. -/
def registerFunction (s : KappaService) (cfg : KappaFunctionConfig)
    (stat : StatResult) : KappaService × HttpReply :=
  if cfg.name = "" ∨ cfg.binaryPath = "" ∨ cfg.image = "" then
    (s, ⟨400, .text "Missing required fields: name, binaryPath, image"⟩)
  else if stat = .notExists then
    (s, ⟨400, .text ("Binary not found: " ++ cfg.binaryPath)⟩)
  else
    let port := if cfg.port = 0 then 8080 else cfg.port
    let fn := NewKappaFunction cfg.name cfg.binaryPath cfg.image cfg.env port
    ({ functions := mapSet s.functions cfg.name fn },
     ⟨201, .obj [("name", cfg.name), ("status", "registered")]⟩)

/-- `KappaService.invokeFunction`: 404 on unknown name; otherwise build
the event from the request and call `KappaFunction.Invoke`, storing the
mutated instance back (the map holds a pointer in Go). `decodedBody` is
the outcome of decoding the request body into `event.Body`. -/
def invokeFunction (s : KappaService) (name : String) (w : InvokeWorld)
    (decodedBody : Except String (List (String × String)))
    (path method : String) (headers queryParams : List (String × String)) :
    KappaService × HttpReply :=
  match mapGet s.functions name with
  | none => (s, ⟨404, .text ("Function not found: " ++ name)⟩)
  | some fn =>
    match decodedBody with
    | .error e => (s, ⟨400, .text ("Invalid request body: " ++ e)⟩)
    | .ok body =>
      let ev : KappaEvent :=
        { body := body, path := path, httpMethod := method
          headers := headers, queryParams := queryParams, requestId := "" }
      let o := fn.Invoke w ev
      let s2 : KappaService := { functions := mapSet s.functions name o.state }
      match o.result with
      | .error e =>
        (s2, ⟨500, .text ("Function invocation failed: " ++ e)⟩)
      | .ok resp => (s2, ⟨resp.statusCode, .obj resp.body⟩)

/-- `KappaService.deleteFunction`: 404 on unknown name; Stop first when
running (500 on failure, entry kept); then remove from the map. -/
def deleteFunction (s : KappaService) (name : String)
    (contStopErr : Option String) : KappaService × HttpReply :=
  match mapGet s.functions name with
  | none => (s, ⟨404, .text ("Function not found: " ++ name)⟩)
  | some fn =>
    let stopStep : KappaFunction × Option String :=
      if fn.isRunning then fn.Stop contStopErr else (fn, none)
    match stopStep with
    | (fn2, some e) =>
      ({ functions := mapSet s.functions name fn2 },
       ⟨500, .text ("Failed to stop function: " ++ e)⟩)
    | (_, none) =>
      ({ functions := mapDel s.functions name },
       ⟨200, .obj [("name", name), ("status", "deleted")]⟩)

/-- Taking the last `n` elements (as `logs[len-n:]` does) twice, with an
append in between, is the same as taking them once at the end. -/
theorem drop_last_append (n : Nat) (xs ys : List String) :
    (xs.drop (xs.length - n) ++ ys).drop
      ((xs.drop (xs.length - n) ++ ys).length - n) =
    (xs ++ ys).drop ((xs ++ ys).length - n) := by
  by_cases hA : xs.length ≤ n
  · have h0 : xs.length - n = 0 := Nat.sub_eq_zero_of_le hA
    rw [h0, List.drop_zero]
  · push_neg at hA
    have hs : (xs.drop (xs.length - n)).length = n := by
      rw [List.length_drop]; omega
    rw [List.length_append, List.length_append, hs]
    by_cases hB : ys.length ≤ n
    · have hidx1 : n + ys.length - n = ys.length := by omega
      rw [hidx1,
        List.drop_append_of_le_length (by omega : ys.length ≤ (xs.drop (xs.length - n)).length),
        List.drop_drop]
      have hidx2 : xs.length + ys.length - n = xs.length - n + ys.length := by
        omega
      rw [hidx2,
        List.drop_append_of_le_length (by omega : xs.length - n + ys.length ≤ xs.length)]
    · push_neg at hB
      have hidx1 : n + ys.length - n =
          (xs.drop (xs.length - n)).length + (ys.length - n) := by
        rw [hs]; omega
      rw [hidx1, List.drop_append]
      have hidx2 : xs.length + ys.length - n = xs.length + (ys.length - n) := by
        omega
      rw [hidx2, List.drop_append]

/-- One append step of the log callback, written as a last-1000 slice. -/
theorem appendLog_eq (logs : List String) (a : String) :
    appendLog logs a = (logs ++ [a]).drop ((logs ++ [a]).length - 1000) := by
  simp only [appendLog]
  split
  · rfl
  · next h =>
    have h0 : (logs ++ [a]).length - 1000 = 0 := by
      simp only [List.length_append, List.length_singleton] at *
      omega
    rw [h0, List.drop_zero]

theorem appendLog_length (logs : List String) (a : String)
    (h : logs.length ≤ 1000) : (appendLog logs a).length ≤ 1000 := by
  simp only [appendLog]
  split <;> rename_i hc <;>
    simp only [gt_iff_lt, List.length_drop, List.length_append,
      List.length_singleton] at hc ⊢ <;>
    omega

/-- Folding the log callback over any line sequence yields the last-1000
slice of everything appended. -/
theorem foldl_appendLog :
    ∀ (lines logs : List String), logs.length ≤ 1000 →
    List.foldl appendLog logs lines =
      (logs ++ lines).drop ((logs ++ lines).length - 1000) := by
  intro lines
  induction lines with
  | nil =>
    intro logs h
    have h0 : (logs ++ ([] : List String)).length - 1000 = 0 := by
      simp only [List.append_nil]
      omega
    rw [List.foldl_nil, h0, List.drop_zero, List.append_nil]
  | cons a tl ih =>
    intro logs h
    rw [List.foldl_cons, ih (appendLog logs a) (appendLog_length logs a h),
      appendLog_eq, drop_last_append 1000 (logs ++ [a]) tl,
      List.append_assoc, List.singleton_append]

/-! ## Shared fixtures for concrete evaluations -/

/-- A `StartWorld` in which every external step succeeds. -/
def wStartOk : StartWorld :=
  { mkdirTemp := .ok "/tmp/kappa-greet-1"
    linkOk := true
    copyErr := none
    chmodErr := none
    newContainerErr := none
    containerStartErr := none
    streamLogsErr := none
    uuidStr := "11111111-1111-1111-1111-111111111111" }

/-- A freshly registered instance. -/
def lfCold : KappaFunction :=
  NewKappaFunction "greet" "/bin/greet" "alpine:latest" ["FOO=bar"] 8080

/-- The instance after one successful `Start`. -/
def lfWarm : KappaFunction := (lfCold.Start wStartOk).1

/-! ## Helper lemmas -/

theorem url_ne_empty (s : String) : "http://localhost:" ++ s ≠ "" := by
  intro h
  have h2 := congrArg String.length h
  rw [String.length_append] at h2
  have h3 : ("http://localhost:" : String).length = 17 := rfl
  have h4 : ("" : String).length = 0 := rfl
  rw [h3, h4] at h2
  omega

/-- The record produced by a successful fresh `Start`. -/
def startedState (lf : KappaFunction) (w : StartWorld) : KappaFunction :=
  { lf with
      container := some
        { image := lf.Image
          name := "kappa-" ++ lf.Name ++ "-" ++ w.uuidStr
          command := ["/app/main"]
          env := startEnv lf
          nspace := "kappa" }
      containerURL := "http://localhost:" ++ toString lf.Port
      isRunning := true
      idleTimerArmed := true }

/-- Exhaustive description of `Start`: no-op when already running, an
error that leaves the state untouched, or the successful transition. -/
theorem start_spec (lf : KappaFunction) (w : StartWorld) :
    (lf.isRunning = true ∧ lf.Start w = (lf, none)) ∨
    (lf.isRunning = false ∧ (lf.Start w).2.isSome = true ∧
      (lf.Start w).1 = lf) ∨
    (lf.isRunning = false ∧ lf.Start w = (startedState lf w, none)) := by
  obtain ⟨md, lk, ce, che, nce, cse, sle, us⟩ := w
  cases hr : lf.isRunning <;> cases md <;> cases lk <;> cases ce <;>
    cases che <;> cases nce <;> cases cse <;> cases sle <;>
    simp_all [KappaFunction.Start, startedState]

/-- Exhaustive description of `Stop`: no-op when cold or without a
container; on a container-stop error only the idle timer is cancelled;
on success additionally `isRunning` is cleared. `container` and
`containerURL` are never touched. -/
theorem stop_spec (lf : KappaFunction) (e : Option String) :
    ((lf.isRunning = false ∨ lf.container = none) ∧ lf.Stop e = (lf, none)) ∨
    (lf.isRunning = true ∧ lf.container ≠ none ∧ (∃ m, e = some m) ∧
      lf.Stop e = ({ lf with idleTimerArmed := false },
        some ("failed to stop container: " ++ e.getD ""))) ∨
    (lf.isRunning = true ∧ lf.container ≠ none ∧ e = none ∧
      lf.Stop e = ({ lf with idleTimerArmed := false, isRunning := false },
        none)) := by
  cases hr : lf.isRunning <;> cases hc : lf.container <;> cases e <;>
    simp_all [KappaFunction.Stop]

/-- A successful `Start` leaves the instance running. -/
theorem start_none_running (lf : KappaFunction) (w : StartWorld)
    (h : (lf.Start w).2 = none) : (lf.Start w).1.isRunning = true := by
  rcases start_spec lf w with ⟨hr, hs⟩ | ⟨_, hsome, _⟩ | ⟨_, hs⟩
  · rw [hs]; exact hr
  · rw [h] at hsome; simp at hsome
  · rw [hs]; simp [startedState]

/-- The safety relation the code actually maintains: a running instance
has a container handle and a populated loopback URL. -/
def liveOk (s : KappaFunction) : Prop :=
  s.isRunning = true → s.container ≠ none ∧ s.containerURL ≠ ""

instance (s : KappaFunction) : Decidable (liveOk s) := by
  unfold liveOk; infer_instance

theorem liveOk_of_fields {s s2 : KappaFunction}
    (hc : s2.container = s.container) (hu : s2.containerURL = s.containerURL)
    (hr : s2.isRunning = true → s.isRunning = true) :
    liveOk s → liveOk s2 := by
  intro h hrun
  rw [hc, hu]
  exact h (hr hrun)

theorem start_liveOk (lf : KappaFunction) (w : StartWorld)
    (h : liveOk lf) : liveOk (lf.Start w).1 := by
  rcases start_spec lf w with ⟨_, hs⟩ | ⟨_, _, hs⟩ | ⟨_, hs⟩
  · rw [hs]; exact h
  · rw [hs]; exact h
  · rw [hs]
    intro _
    exact ⟨by simp [startedState], by simp [startedState]; exact url_ne_empty _⟩

theorem stop_liveOk (lf : KappaFunction) (e : Option String)
    (h : liveOk lf) : liveOk (lf.Stop e).1 := by
  rcases stop_spec lf e with ⟨_, hs⟩ | ⟨_, _, _, hs⟩ | ⟨_, _, _, hs⟩ <;> rw [hs]
  · exact h
  · exact liveOk_of_fields (s := lf) rfl rfl (fun hr => hr) h
  · exact liveOk_of_fields (s := lf) rfl rfl (fun hr => by simp at hr) h

theorem invokeFinish_liveOk (s : KappaFunction) (reqId : String)
    (decoded : Except String KappaResponse) (restarts posts : Nat)
    (h : liveOk s) : liveOk (invokeFinish s reqId decoded restarts posts).state := by
  cases decoded <;>
    exact liveOk_of_fields rfl rfl (fun hr => hr) h

theorem invoke_liveOk (lf : KappaFunction) (w : InvokeWorld)
    (ev : KappaEvent) (h : liveOk lf) : liveOk (lf.Invoke w ev).state := by
  unfold KappaFunction.Invoke
  have h1 : liveOk (if !lf.isRunning then lf.Start w.startW else (lf, none)).1 := by
    split
    · exact start_liveOk lf w.startW h
    · exact h
  rcases hss : (if !lf.isRunning then lf.Start w.startW else (lf, none)) with ⟨s1, oe⟩
  rw [hss] at h1
  cases oe with
  | some e => simpa using h1
  | none =>
    have h2 : liveOk { s1 with idleTimerArmed := true } :=
      liveOk_of_fields rfl rfl (fun hr => hr) h1
    cases hp : w.post1 with
    | ok decoded =>
      simpa using invokeFinish_liveOk _ _ decoded 0 1 h2
    | doError e1 =>
      simp only []
      split
      · have h3 : liveOk (({ s1 with idleTimerArmed := true} :
            KappaFunction).Stop w.restartStopErr).1 :=
          stop_liveOk _ _ h2
        have h4 : liveOk ((({ s1 with idleTimerArmed := true} :
            KappaFunction).Stop w.restartStopErr).1.Start w.restartStartW).1 :=
          start_liveOk _ _ h3
        rcases hst : (({ s1 with idleTimerArmed := true} :
            KappaFunction).Stop w.restartStopErr).1.Start w.restartStartW with ⟨s4, oe2⟩
        rw [hst] at h4
        cases oe2 with
        | some e => simpa using h4
        | none =>
          cases hp2 : w.post2 with
          | doError e2 => simpa using h4
          | ok decoded => simpa using invokeFinish_liveOk _ _ decoded 1 2 h4
      · simpa using h2

theorem stepOp_liveOk (s : KappaFunction) (op : KOp)
    (h : liveOk s) : liveOk (stepOp s op) := by
  cases op with
  | start w => exact start_liveOk s w h
  | stop e => exact stop_liveOk s e h
  | invoke w ev => exact invoke_liveOk s w ev h
  | idleFire e =>
    simp only [stepOp]
    split
    · exact stop_liveOk s e h
    · exact h
  | setIdleTimeout d =>
    exact liveOk_of_fields rfl rfl (fun hr => hr) h

theorem runOps_liveOk (s : KappaFunction) (ops : List KOp)
    (h : liveOk s) : liveOk (runOps s ops) := by
  induction ops generalizing s with
  | nil => exact h
  | cons op tl ih => exact ih (stepOp s op) (stepOp_liveOk s op h)

/-- Replacing an existing entry keeps the key list; the keys are the
invariant the overwrite-style `mapSet` maintains. -/
theorem mapSet_replace_keys (m : List (String × KappaFunction)) (k : String)
    (v : KappaFunction) :
    (m.map (fun p => if p.1 = k then (k, v) else p)).map Prod.fst =
      m.map Prod.fst := by
  induction m with
  | nil => rfl
  | cons p tl ih =>
    simp only [List.map_cons, ih, List.cons.injEq, and_true]
    by_cases hp : p.1 = k <;> simp [hp]

theorem find?_replace (k : String) (v : KappaFunction) :
    ∀ m : List (String × KappaFunction),
    m.any (fun p => p.1 = k) = true →
    (m.map (fun p => if p.1 = k then (k, v) else p)).find?
      (fun p => p.1 = k) = some (k, v) := by
  intro m
  induction m with
  | nil => intro h; simp at h
  | cons p tl ih =>
    intro h
    by_cases hp : p.1 = k
    · simp [List.find?_cons_of_pos, hp]
    · have htl : tl.any (fun q => q.1 = k) = true := by
        simp only [List.any_cons, Bool.or_eq_true, decide_eq_true_eq] at h
        rcases h with h | h
        · exact absurd h hp
        · simpa using h
      simp only [List.map_cons, if_neg hp]
      rw [List.find?_cons_of_neg _ (by simpa using hp)]
      exact ih htl

theorem find?_append_absent (k : String) (v : KappaFunction) :
    ∀ m : List (String × KappaFunction),
    m.any (fun p => p.1 = k) = false →
    (m ++ [(k, v)]).find? (fun p => p.1 = k) = some (k, v) := by
  intro m
  induction m with
  | nil => intro _; simp
  | cons p tl ih =>
    intro h
    simp only [List.any_cons, Bool.or_eq_false_iff,
      decide_eq_false_iff_not] at h
    rw [List.cons_append, List.find?_cons_of_neg _ (by simpa using h.1)]
    exact ih (by simpa using h.2)

theorem mapGet_mapSet (m : List (String × KappaFunction)) (k : String)
    (v : KappaFunction) : mapGet (mapSet m k v) k = some v := by
  unfold mapGet mapSet
  cases hany : m.any (fun p => p.1 = k) with
  | true =>
    simp only [hany, if_true]
    rw [find?_replace k v m hany]
    rfl
  | false =>
    simp only [hany, Bool.false_eq_true, if_false]
    rw [find?_append_absent k v m hany]
    rfl

theorem mapGet_mapDel (m : List (String × KappaFunction)) (k : String) :
    mapGet (mapDel m k) k = none := by
  induction m with
  | nil => rfl
  | cons p tl ih =>
    by_cases hp : p.1 = k
    · simpa [mapDel, List.filter_cons, hp] using ih
    · rw [mapDel, List.filter_cons]
      simp [mapGet, hp, List.find?_cons_of_neg]

theorem mapSet_keys_nodup (m : List (String × KappaFunction)) (k : String)
    (v : KappaFunction) (h : (m.map Prod.fst).Nodup) :
    ((mapSet m k v).map Prod.fst).Nodup := by
  unfold mapSet
  split
  · rw [mapSet_replace_keys]
    exact h
  · next hany =>
    have hk : k ∉ m.map Prod.fst := by
      intro hmem
      rcases List.mem_map.mp hmem with ⟨p, hp, hfst⟩
      apply hany
      simp only [List.any_eq_true, decide_eq_true_eq]
      exact ⟨p, hp, hfst⟩
    have hkeys : (m ++ [(k, v)]).map Prod.fst = m.map Prod.fst ++ [k] := by
      simp
    rw [hkeys]
    apply List.Nodup.append h (List.nodup_singleton k)
    intro a ha hb
    rw [List.mem_singleton] at hb
    subst hb
    exact hk ha

/-! ## The claims -/

/-- C3: for every sequence of appends through the log callback the
buffer length never exceeds the cap of 1000 lines, and the buffer is
exactly the last 1000 appended lines in append order (all appended
lines while under the cap). -/
theorem c3_log_buffer_bound (lines : List String) :
    (List.foldl appendLog [] lines).length ≤ 1000 ∧
    List.foldl appendLog [] lines = lines.drop (lines.length - 1000) := by
  have h := foldl_appendLog lines [] (by simp)
  rw [List.nil_append] at h
  refine ⟨?_, h⟩
  rw [h, List.length_drop]
  omega

/-- C10: `Start` on an already-running instance returns nil at once
without changing any state, and `Stop` on an instance that is not
running or has no container returns nil without any effect. -/
theorem c10_idempotent :
    (∀ (lf : KappaFunction) (w : StartWorld), lf.isRunning = true →
      lf.Start w = (lf, none)) ∧
    (∀ (lf : KappaFunction) (e : Option String),
      lf.isRunning = false ∨ lf.container = none →
      lf.Stop e = (lf, none)) := by
  constructor
  · intro lf w h
    rcases start_spec lf w with ⟨_, hs⟩ | ⟨hr, _, _⟩ | ⟨hr, _⟩
    · exact hs
    · rw [h] at hr; exact Bool.noConfusion hr
    · rw [h] at hr; exact Bool.noConfusion hr
  · intro lf e h
    rcases stop_spec lf e with ⟨_, hs⟩ | ⟨hr, hc, _, _⟩ | ⟨hr, hc, _, _⟩
    · exact hs
    · rcases h with h | h
      · rw [h] at hr; exact Bool.noConfusion hr
      · exact absurd h hc
    · rcases h with h | h
      · rw [h] at hr; exact Bool.noConfusion hr
      · exact absurd h hc

/-- C10 witness: a concrete warm instance and a concrete cold one. -/
theorem c10_witness :
    lfWarm.Start wStartOk = (lfWarm, none) ∧
    lfCold.Stop none = (lfCold, none) :=
  ⟨c10_idempotent.1 lfWarm wStartOk (by decide),
   c10_idempotent.2 lfCold none (Or.inl (by decide))⟩

/-- C9: a successful cold-to-warm `Start` hands the container exactly
`PORT`, `LAMBDA_TASK_ROOT`, `LAMBDA_FUNCTION_NAME`,
`AWS_LAMBDA_RUNTIME_API` in that order, followed by the caller env in
its original order. -/
theorem c9_env_order (lf : KappaFunction) (w : StartWorld)
    (s2 : KappaFunction) (hr : lf.isRunning = false)
    (hs : lf.Start w = (s2, none)) :
    ∃ cfg, s2.container = some cfg ∧
      cfg.env = ["PORT=" ++ toString lf.Port, "LAMBDA_TASK_ROOT=/app",
        "LAMBDA_FUNCTION_NAME=" ++ lf.Name,
        "AWS_LAMBDA_RUNTIME_API=localhost:8080"] ++ lf.Env := by
  rcases start_spec lf w with ⟨hr2, _⟩ | ⟨_, hsome, _⟩ | ⟨_, hs2⟩
  · rw [hr] at hr2; exact Bool.noConfusion hr2
  · rw [hs] at hsome; simp at hsome
  · rw [hs] at hs2
    have h2 : s2 = startedState lf w := by
      simpa using congrArg Prod.fst hs2
    subst h2
    exact ⟨_, rfl, rfl⟩

/-- C9 witness: the fixture instance after its cold start. -/
theorem c9_witness :
    ∃ cfg, lfWarm.container = some cfg ∧
      cfg.env = ["PORT=" ++ toString lfCold.Port, "LAMBDA_TASK_ROOT=/app",
        "LAMBDA_FUNCTION_NAME=" ++ lfCold.Name,
        "AWS_LAMBDA_RUNTIME_API=localhost:8080"] ++ lfCold.Env :=
  c9_env_order lfCold wStartOk lfWarm (by decide) rfl

/-- A `StopWorld` whose engine reports the task as gone. -/
def wStopEx : StopWorld :=
  { statusResult := .error .notFound
    killResult := none
    waitResult := none
    exitBeforeTimeout := true
    forceKillResult := none
    removeW :=
      { taskStatus := .error .notFound
        taskDelete := none
        containerDelete := none
        cleanupErr := none } }

/-- C6 counterexample: with a nil task handle and `removeOnStop` set,
the adapter's `Stop` fails with `no running task found` instead of
proceeding to `Remove`. -/
theorem c6_counterexample :
    Container.Stop ⟨"kappa-greet", false, true⟩ wStopEx ⟨true, true⟩ =
      .error "no running task found" := rfl

/-- C6 (amended): when the task handle is present but the task is not
running, `Stop` does not fail — it proceeds to `Remove` when
`removeOnStop` is set and returns success otherwise; when the task
handle is nil, `Stop` instead returns the error `no running task
found`. -/
theorem c6_amended (c : Container) (w : StopWorld) (opts : StopOptions) :
    (c.taskPresent = false →
      c.Stop w opts = .error "no running task found") ∧
    (c.taskPresent = true → statusOrZero w.statusResult ≠ .running →
      c.Stop w opts =
        (if opts.removeOnStop then c.Remove w.removeW else .ok ())) := by
  constructor
  · intro h
    simp [Container.Stop, h]
  · intro h hnr
    simp [Container.Stop, h, hnr]

/-- C6 witness: a present-but-exited task with `removeOnStop` set. -/
theorem c6_witness :
    Container.Stop ⟨"kappa-greet-2", true, true⟩ wStopEx ⟨true, true⟩ =
      Container.Remove ⟨"kappa-greet-2", true, true⟩ wStopEx.removeW :=
  (c6_amended ⟨"kappa-greet-2", true, true⟩ wStopEx ⟨true, true⟩).2 rfl
    (by decide)

/-- C1 counterexample: after a successful `Start` followed by `Stop`,
`running` is false while the container field is still present and the
containerURL still populated — the claimed four-way equivalence fails,
and `Stop` does not clear `container`/`containerURL`. -/
theorem c1_counterexample :
    (lfWarm.Stop none).1.isRunning = false ∧
    (lfWarm.Stop none).1.container.isSome = true ∧
    (lfWarm.Stop none).1.containerURL ≠ "" := by decide

/-- C1 (amended): for every operation sequence on a function instance,
whenever `running` is true the container field is present and the
containerURL populated; but the converse directions fail: a completed
`Stop` sets `running` to false and disarms the idle timer while leaving
`container` and `containerURL` exactly as they were. -/
theorem c1_amended :
    (∀ (name bp img : String) (env : List String) (port : Int)
        (ops : List KOp),
      (runOps (NewKappaFunction name bp img env port) ops).isRunning = true →
      (runOps (NewKappaFunction name bp img env port) ops).container ≠ none ∧
      (runOps (NewKappaFunction name bp img env port) ops).containerURL ≠ "") ∧
    (∀ (lf : KappaFunction) (e : Option String) (s2 : KappaFunction),
      lf.isRunning = true → lf.container ≠ none → lf.Stop e = (s2, none) →
      s2.isRunning = false ∧ s2.idleTimerArmed = false ∧
      s2.container = lf.container ∧ s2.containerURL = lf.containerURL) := by
  constructor
  · intro name bp img env port ops hrun
    have h0 : liveOk (NewKappaFunction name bp img env port) := by
      intro h
      simp [NewKappaFunction] at h
    exact runOps_liveOk _ ops h0 hrun
  · intro lf e s2 hr hc hs
    rcases stop_spec lf e with ⟨h, _⟩ | ⟨_, _, _, hs2⟩ | ⟨_, _, _, hs2⟩
    · rcases h with h | h
      · rw [hr] at h; exact Bool.noConfusion h
      · exact absurd h hc
    · rw [hs] at hs2
      have h2 := congrArg Prod.snd hs2
      simp at h2
    · rw [hs] at hs2
      have h2 : s2 = { lf with idleTimerArmed := false, isRunning := false } := by
        simpa using congrArg Prod.fst hs2
      subst h2
      exact ⟨rfl, rfl, rfl, rfl⟩

/-- C1 witness: a concrete trace ending warm, and a concrete Stop. -/
theorem c1_witness :
    ((runOps (NewKappaFunction "greet" "/bin/greet" "alpine:latest"
        ["FOO=bar"] 8080) [KOp.start wStartOk]).container ≠ none ∧
     (runOps (NewKappaFunction "greet" "/bin/greet" "alpine:latest"
        ["FOO=bar"] 8080) [KOp.start wStartOk]).containerURL ≠ "") ∧
    ((lfWarm.Stop none).1.isRunning = false ∧
     (lfWarm.Stop none).1.idleTimerArmed = false ∧
     (lfWarm.Stop none).1.container = lfWarm.container ∧
     (lfWarm.Stop none).1.containerURL = lfWarm.containerURL) :=
  ⟨c1_amended.1 "greet" "/bin/greet" "alpine:latest" ["FOO=bar"] 8080
      [KOp.start wStartOk] (by decide),
   c1_amended.2 lfWarm none (lfWarm.Stop none).1 (by decide) (by decide) rfl⟩

/-- The registry keys stay duplicate-free across one register call. -/
theorem register_keys_nodup (s : KappaService) (cfg : KappaFunctionConfig)
    (stat : StatResult) (h : (s.functions.map Prod.fst).Nodup) :
    (((registerFunction s cfg stat).1).functions.map Prod.fst).Nodup := by
  unfold registerFunction
  split
  · exact h
  · split
    · exact h
    · exact mapSet_keys_nodup _ _ _ h

/-- Registration fixtures: the same name registered twice with
different binary, image and port. -/
def cfgX1 : KappaFunctionConfig :=
  { name := "x", binaryPath := "/bin/x1", image := "img1", env := [], port := 1111 }

def cfgX2 : KappaFunctionConfig :=
  { name := "x", binaryPath := "/bin/x2", image := "img2", env := [], port := 2222 }

/-- A registry holding `x` once. -/
def svcX : KappaService := (registerFunction ⟨[]⟩ cfgX1 .statOk).1

/-- C2 counterexample: registering the already-present name `x` again
returns 201, not 409, and replaces the stored instance (its binary,
image and port change), because `registerFunction` never checks for an
existing entry. -/
theorem c2_counterexample :
    (registerFunction svcX cfgX2 .statOk).2.status = 201 ∧
    (registerFunction svcX cfgX2 .statOk).2.status ≠ 409 ∧
    mapGet svcX.functions "x" =
      some (NewKappaFunction "x" "/bin/x1" "img1" [] 1111) ∧
    mapGet (registerFunction svcX cfgX2 .statOk).1.functions "x" =
      some (NewKappaFunction "x" "/bin/x2" "img2" [] 2222) := by decide

/-- C2 (amended): the registry never holds two entries for one name
(register sequences preserve duplicate-free keys, because Go map
assignment overwrites), but a duplicate register succeeds with 201 and
replaces the existing instance rather than failing with 409. -/
theorem c2_amended :
    (∀ (regs : List (KappaFunctionConfig × StatResult)) (s : KappaService),
      (s.functions.map Prod.fst).Nodup →
      (((regs.foldl (fun t pr => (registerFunction t pr.1 pr.2).1) s).functions.map
        Prod.fst).Nodup)) ∧
    (∀ (s : KappaService) (cfg : KappaFunctionConfig) (stat : StatResult),
      cfg.name ≠ "" → cfg.binaryPath ≠ "" → cfg.image ≠ "" →
      stat ≠ .notExists →
      (registerFunction s cfg stat).2.status = 201 ∧
      mapGet (registerFunction s cfg stat).1.functions cfg.name =
        some (NewKappaFunction cfg.name cfg.binaryPath cfg.image cfg.env
          (if cfg.port = 0 then 8080 else cfg.port))) := by
  constructor
  · intro regs
    induction regs with
    | nil => intro s h; exact h
    | cons pr tl ih =>
      intro s h
      rw [List.foldl_cons]
      exact ih _ (register_keys_nodup s pr.1 pr.2 h)
  · intro s cfg stat h1 h2 h3 h4
    have hc1 : ¬(cfg.name = "" ∨ cfg.binaryPath = "" ∨ cfg.image = "") := by
      tauto
    simp only [registerFunction, if_neg hc1, if_neg h4]
    exact ⟨by trivial, mapGet_mapSet _ _ _⟩

/-- C2 witness: the duplicate registration of `x`. -/
theorem c2_witness :
    (registerFunction svcX cfgX2 .statOk).2.status = 201 ∧
    mapGet (registerFunction svcX cfgX2 .statOk).1.functions cfgX2.name =
      some (NewKappaFunction cfgX2.name cfgX2.binaryPath cfgX2.image cfgX2.env
        (if cfgX2.port = 0 then 8080 else cfgX2.port)) :=
  c2_amended.2 svcX cfgX2 .statOk (by decide) (by decide) (by decide)
    (by decide)

/-- C7: registration replies 400 on a missing required field and on a
binary that does not exist on disk, leaving the registry untouched;
otherwise it creates a non-running instance under the name, defaulting
port 0 to 8080, and replies 201 with the registered body. -/
theorem c7_register_validation (s : KappaService) (cfg : KappaFunctionConfig)
    (stat : StatResult) :
    ((cfg.name = "" ∨ cfg.binaryPath = "" ∨ cfg.image = "") →
      (registerFunction s cfg stat).2.status = 400 ∧
      (registerFunction s cfg stat).1 = s) ∧
    (¬(cfg.name = "" ∨ cfg.binaryPath = "" ∨ cfg.image = "") →
      stat = .notExists →
      (registerFunction s cfg stat).2 =
        ⟨400, .text ("Binary not found: " ++ cfg.binaryPath)⟩ ∧
      (registerFunction s cfg stat).1 = s) ∧
    (¬(cfg.name = "" ∨ cfg.binaryPath = "" ∨ cfg.image = "") →
      stat ≠ .notExists →
      (registerFunction s cfg stat).2 =
        ⟨201, .obj [("name", cfg.name), ("status", "registered")]⟩ ∧
      mapGet (registerFunction s cfg stat).1.functions cfg.name =
        some (NewKappaFunction cfg.name cfg.binaryPath cfg.image cfg.env
          (if cfg.port = 0 then 8080 else cfg.port)) ∧
      (NewKappaFunction cfg.name cfg.binaryPath cfg.image cfg.env
        (if cfg.port = 0 then 8080 else cfg.port)).isRunning = false) := by
  refine ⟨?_, ?_, ?_⟩
  · intro h
    simp only [registerFunction, if_pos h]
    exact ⟨by trivial, by trivial⟩
  · intro h1 h2
    simp only [registerFunction, if_neg h1, if_pos h2]
    exact ⟨by trivial, by trivial⟩
  · intro h1 h2
    simp only [registerFunction, if_neg h1, if_neg h2]
    exact ⟨by trivial, mapGet_mapSet _ _ _, by trivial⟩

/-- C7 witness: a valid registration into an empty registry. -/
theorem c7_witness :
    (registerFunction (⟨[]⟩ : KappaService) cfgX1 StatResult.statOk).2 =
      ⟨201, .obj [("name", cfgX1.name), ("status", "registered")]⟩ ∧
    mapGet (registerFunction (⟨[]⟩ : KappaService) cfgX1
        StatResult.statOk).1.functions cfgX1.name =
      some (NewKappaFunction cfgX1.name cfgX1.binaryPath cfgX1.image cfgX1.env
        (if cfgX1.port = 0 then 8080 else cfgX1.port)) ∧
    (NewKappaFunction cfgX1.name cfgX1.binaryPath cfgX1.image cfgX1.env
      (if cfgX1.port = 0 then 8080 else cfgX1.port)).isRunning = false :=
  (c7_register_validation ⟨[]⟩ cfgX1 .statOk).2.2 (by decide) (by decide)

/-- The Stop a delete performs succeeds exactly when the instance is
cold, without a container, or the engine stop reports no error. -/
theorem stop_snd_none (fn : KappaFunction) (e : Option String)
    (h : fn.isRunning = false ∨ fn.container = none ∨ e = none) :
    (fn.Stop e).2 = none := by
  rcases stop_spec fn e with ⟨_, hs⟩ | ⟨hr, hc, hex, hs⟩ | ⟨_, _, _, hs⟩
  · rw [hs]
  · exfalso
    rcases hex with ⟨m, hm⟩
    rcases h with h | h | h
    · rw [h] at hr; exact Bool.noConfusion hr
    · exact hc h
    · rw [h] at hm; exact Option.noConfusion hm
  · rw [hs]

/-- C8: Delete replies 404 on an unknown name and leaves the registry
unchanged; when the function exists and its Stop succeeds (or was not
needed) the entry is removed, the reply is 200, and every subsequent
invoke of the name replies 404; when the Stop fails the reply is 500
and the entry remains registered. -/
theorem c8_delete_semantics (s : KappaService) (name : String)
    (e : Option String) :
    (mapGet s.functions name = none →
      deleteFunction s name e =
        (s, ⟨404, .text ("Function not found: " ++ name)⟩)) ∧
    (∀ fn, mapGet s.functions name = some fn →
      (fn.isRunning = false ∨ fn.container = none ∨ e = none) →
      (deleteFunction s name e).2 =
        ⟨200, .obj [("name", name), ("status", "deleted")]⟩ ∧
      mapGet (deleteFunction s name e).1.functions name = none ∧
      (∀ (w : InvokeWorld) (db : Except String (List (String × String)))
          (p m : String) (hd qp : List (String × String)),
        (invokeFunction (deleteFunction s name e).1 name w db p m hd qp).2 =
          ⟨404, .text ("Function not found: " ++ name)⟩)) ∧
    (∀ fn err, mapGet s.functions name = some fn →
      fn.isRunning = true → fn.container ≠ none → e = some err →
      (deleteFunction s name e).2.status = 500 ∧
      mapGet (deleteFunction s name e).1.functions name ≠ none) := by
  refine ⟨?_, ?_, ?_⟩
  · intro h
    simp only [deleteFunction, h]
  · intro fn hfn hok
    have hsnd : (if fn.isRunning = true then fn.Stop e else (fn, none)).2 =
        none := by
      split
      · exact stop_snd_none fn e hok
      · rfl
    rcases hps : (if fn.isRunning = true then fn.Stop e else (fn, none))
      with ⟨fn2, oe⟩
    rw [hps] at hsnd
    simp only at hsnd
    subst hsnd
    simp only [deleteFunction, hfn, hps]
    refine ⟨by trivial, mapGet_mapDel _ _, ?_⟩
    intro w db p m hd qp
    simp only [invokeFunction, mapGet_mapDel]
  · intro fn err hfn hr hc he
    subst he
    have hs : fn.Stop (some err) =
        ({ fn with idleTimerArmed := false },
          some ("failed to stop container: " ++ err)) := by
      rcases stop_spec fn (some err) with ⟨h, _⟩ | ⟨_, _, _, hs2⟩ | ⟨_, _, hnone, _⟩
      · exfalso
        rcases h with h | h
        · rw [hr] at h; exact Bool.noConfusion h
        · exact hc h
      · exact hs2
      · exact Option.noConfusion hnone
    simp only [deleteFunction, hfn, hr, if_true, hs]
    refine ⟨by trivial, ?_⟩
    rw [mapGet_mapSet]
    simp

/-- A world for a successful invocation: every external step succeeds
and the container replies with `respOk`. -/
def respOk : KappaResponse :=
  { statusCode := 200
    headers := []
    body := [("message", "Hello, TestUser! Welcome to your Kappa function!")]
    requestId := "" }

def wInvokeOk : InvokeWorld :=
  { startW := wStartOk
    freshId := "22222222-2222-2222-2222-222222222222"
    post1 := .ok (.ok respOk)
    restartStopErr := none
    restartStartW := wStartOk
    post2 := .ok (.ok respOk) }

/-- C8 witness: delete the registered, cold function `x` and observe
200, removal, and a 404 on a subsequent invoke. -/
theorem c8_witness :
    (deleteFunction svcX "x" none).2 =
      ⟨200, .obj [("name", "x"), ("status", "deleted")]⟩ ∧
    mapGet (deleteFunction svcX "x" none).1.functions "x" = none ∧
    (invokeFunction (deleteFunction svcX "x" none).1 "x" wInvokeOk (.ok [])
        "/functions/x" "POST" [] []).2 =
      ⟨404, .text ("Function not found: " ++ "x")⟩ := by
  have h := (c8_delete_semantics svcX "x" none).2.1
    (NewKappaFunction "x" "/bin/x1" "img1" [] 1111) (by decide)
    (Or.inl (by decide))
  exact ⟨h.1, h.2.1, h.2.2 wInvokeOk (.ok []) "/functions/x" "POST" [] []⟩

/-- C4: one invoke attempts at most one in-place restart and at most
two POSTs; the restart happens exactly when the first POST failed at
the transport level after a successful start phase (the instance being
running at the check); any other failure — start error, decode error —
is surfaced without a restart. -/
theorem c4_single_restart (lf : KappaFunction) (w : InvokeWorld)
    (ev : KappaEvent) :
    (lf.Invoke w ev).restarts ≤ 1 ∧
    ((lf.Invoke w ev).restarts = 1 ↔
      ((lf.isRunning = true ∨ (lf.Start w.startW).2 = none) ∧
        w.post1.isDoError = true)) ∧
    (w.post1.isDoError = false →
      (lf.Invoke w ev).restarts = 0 ∧
      (lf.Invoke w ev).postsAttempted ≤ 1) ∧
    (lf.Invoke w ev).postsAttempted ≤ 2 := by
  cases hr : lf.isRunning with
  | false =>
    rcases hst : lf.Start w.startW with ⟨s1, oe⟩
    cases oe with
    | some e =>
      simp [KappaFunction.Invoke, hr, hst, PostOutcome.isDoError]
    | none =>
      have hrun : s1.isRunning = true := by
        have h2 := start_none_running lf w.startW (by rw [hst])
        rwa [hst] at h2
      cases hp : w.post1 with
      | ok decoded =>
        cases decoded <;>
          simp [KappaFunction.Invoke, hr, hst, hp, PostOutcome.isDoError,
            invokeFinish]
      | doError e1 =>
        simp only [KappaFunction.Invoke, hr, Bool.not_false, if_true, hst,
          hp, hrun]
        split
        · simp [hst, PostOutcome.isDoError]
        · cases hp2 : w.post2 with
          | doError e2 => simp [hp2, hst, PostOutcome.isDoError]
          | ok decoded =>
            cases decoded <;>
              simp [hp2, hst, PostOutcome.isDoError, invokeFinish]
  | true =>
    cases hp : w.post1 with
    | ok decoded =>
      cases decoded <;>
        simp [KappaFunction.Invoke, hr, hp, PostOutcome.isDoError,
          invokeFinish]
    | doError e1 =>
      simp only [KappaFunction.Invoke, hr, Bool.not_true, Bool.false_eq_true,
        if_false, hp]
      rw [if_pos trivial]
      split
      · simp [PostOutcome.isDoError]
      · cases hp2 : w.post2 with
        | doError e2 => simp [hp2, PostOutcome.isDoError]
        | ok decoded =>
          cases decoded <;> simp [hp2, PostOutcome.isDoError, invokeFinish]

/-- A world whose first POST fails at the transport level and whose
retry succeeds. -/
def wInvokeFail : InvokeWorld :=
  { wInvokeOk with post1 := .doError "connection refused" }

/-- The cold-start test event, with no request id of its own. -/
def evEx : KappaEvent :=
  { body := [("name", "TestUser")]
    path := "/functions/greet"
    httpMethod := "POST"
    headers := [("Content-Type", "application/json")]
    queryParams := []
    requestId := "" }

/-- C4 witness: a successful POST does not restart; a failed first POST
on a warm instance restarts exactly once. -/
theorem c4_witness :
    ((lfWarm.Invoke wInvokeOk evEx).restarts = 0 ∧
     (lfWarm.Invoke wInvokeOk evEx).postsAttempted ≤ 1) ∧
    (lfWarm.Invoke wInvokeFail evEx).restarts = 1 :=
  ⟨(c4_single_restart lfWarm wInvokeOk evEx).2.2.1 (by decide),
   (c4_single_restart lfWarm wInvokeFail evEx).2.1.mpr
     ⟨Or.inl (by decide), by decide⟩⟩

/-- The request id the invocation sends on the
`Kappa-Runtime-Aws-Request-Id` header: the event's own id, or the
generated UUID when the event carries none. -/
def sentRequestId (ev : KappaEvent) (w : InvokeWorld) : String :=
  if ev.requestId = "" then w.freshId else ev.requestId

/-- What `invokeFinish` returns on success: the envelope's id, backfilled
with the sent id when empty. -/
theorem invokeFinish_result (s : KappaFunction) (reqId : String)
    (decoded : Except String KappaResponse) (restarts posts : Nat)
    (resp : KappaResponse) (hreq : reqId ≠ "")
    (hok : (invokeFinish s reqId decoded restarts posts).result = .ok resp) :
    resp.requestId ≠ "" ∧
    (invokeFinish s reqId decoded restarts posts).headerSent = some reqId ∧
    ∃ kr, (invokeFinish s reqId decoded restarts posts).envelope = some kr ∧
      resp.requestId = (if kr.requestId = "" then reqId else kr.requestId) := by
  cases decoded with
  | error e => simp [invokeFinish] at hok
  | ok kr =>
    simp only [invokeFinish, Except.ok.injEq] at hok
    refine ⟨?_, rfl, kr, rfl, ?_⟩
    · rw [← hok]
      by_cases hk : kr.requestId = "" <;> simp [hk, hreq]
    · rw [← hok]
      by_cases hk : kr.requestId = "" <;> simp [hk]

/-- C5: every successful Invoke returns a non-empty `requestId`: an
empty incoming id is replaced by a generated UUID, that id is the one
sent on the `Kappa-Runtime-Aws-Request-Id` header, and an empty
envelope id is backfilled with it, so the returned id equals the sent
one unless the container overrode it with a non-empty value. -/
theorem c5_request_id (lf : KappaFunction) (w : InvokeWorld)
    (ev : KappaEvent) (resp : KappaResponse) (hfresh : w.freshId ≠ "")
    (hok : (lf.Invoke w ev).result = .ok resp) :
    resp.requestId ≠ "" ∧
    (lf.Invoke w ev).headerSent = some (sentRequestId ev w) ∧
    ∃ kr, (lf.Invoke w ev).envelope = some kr ∧
      resp.requestId =
        (if kr.requestId = "" then sentRequestId ev w else kr.requestId) := by
  have hsent : sentRequestId ev w ≠ "" := by
    unfold sentRequestId
    split
    · exact hfresh
    · next h => exact h
  cases hr : lf.isRunning with
  | false =>
    rcases hst : lf.Start w.startW with ⟨s1, oe⟩
    cases oe with
    | some e =>
      simp [KappaFunction.Invoke, hr, hst] at hok
    | none =>
      have hrun : s1.isRunning = true := by
        have h2 := start_none_running lf w.startW (by rw [hst])
        rwa [hst] at h2
      cases hp : w.post1 with
      | ok decoded =>
        simp only [KappaFunction.Invoke, hr, Bool.not_false, if_true, hst,
          hp] at hok ⊢
        exact invokeFinish_result _ _ decoded 0 1 resp hsent hok
      | doError e1 =>
        simp only [KappaFunction.Invoke, hr, Bool.not_false, if_true, hst,
          hp, hrun] at hok ⊢
        split at hok
        · simp at hok
        · cases hp2 : w.post2 with
          | doError e2 => simp [hp2] at hok
          | ok decoded =>
            simp only [hp2] at hok ⊢
            exact invokeFinish_result _ _ decoded 1 2 resp hsent hok
  | true =>
    cases hp : w.post1 with
    | ok decoded =>
      simp only [KappaFunction.Invoke, hr, Bool.not_true, Bool.false_eq_true,
        if_false, hp] at hok ⊢
      exact invokeFinish_result _ _ decoded 0 1 resp hsent hok
    | doError e1 =>
      simp only [KappaFunction.Invoke, hr, Bool.not_true, Bool.false_eq_true,
        if_false, hp] at hok ⊢
      rw [if_pos trivial] at hok ⊢
      split at hok
      · simp at hok
      · cases hp2 : w.post2 with
        | doError e2 => simp [hp2] at hok
        | ok decoded =>
          simp only [hp2] at hok ⊢
          exact invokeFinish_result _ _ decoded 1 2 resp hsent hok

/-- C5 witness: a warm invoke whose container left `requestId` empty;
the returned id is the generated UUID. -/
theorem c5_witness :
    ({ respOk with requestId := wInvokeOk.freshId } : KappaResponse).requestId
      ≠ "" ∧
    (lfWarm.Invoke wInvokeOk evEx).headerSent =
      some (sentRequestId evEx wInvokeOk) ∧
    ∃ kr, (lfWarm.Invoke wInvokeOk evEx).envelope = some kr ∧
      ({ respOk with requestId := wInvokeOk.freshId } :
          KappaResponse).requestId =
        (if kr.requestId = "" then sentRequestId evEx wInvokeOk
          else kr.requestId) :=
  c5_request_id lfWarm wInvokeOk evEx
    { respOk with requestId := wInvokeOk.freshId } (by decide) (by decide)

end Kappa
